import Mathlib

/-!
Shallow embedding of the drowsiness-detection core of this repository.

The embedded code lives in `drowsiness_detector.py` (class `DrowsinessDetector`:
`__init__`, `reset_session`, `log_drowsy_event`, `save_session_log`,
`process_frame`, `get_session_stats`, `load_historical_logs`) and in
`streamlit_app.py` (`check_live_session_status`, `start_live_detection`, and the
start-button branch of `live_detection_tab`).

Modelling conventions:
- Python floats are modelled as rationals (`ℚ`); Python ints as `ℤ` where a
  caller-supplied value can be negative (`frame_check`), `ℕ` for counters that
  the code only ever sets to 0 or increments (`flag`, `total_frames`,
  `drowsy_frames`).
- Face detection and the eye-aspect-ratio geometry are external collaborators:
  a frame is represented by the list of per-face EAR values in detection order
  (`subjects` loop order in `process_frame`).
- Wall-clock reads (`datetime.datetime.now()`) are an explicit `now : ℚ`
  argument.
- The JSON log file and the live-status file are modelled as explicit store
  states: `missing`, `corrupt` (unparseable), or parsed contents, matching the
  `os.path.exists` / `try: json.load / except:` structure of the code.
- Drawing, sound playback and frame annotation are side effects outside the
  model; `process_frame` returns the mutated session state and the `results`
  dict.
-/

/-- One entry of `self.drowsy_events`, as built by `log_drowsy_event`. -/
structure DrowsyEvent where
  timestamp : ℚ
  ear_value : ℚ
  session_duration : ℚ
  deriving Repr, DecidableEq

/-- The `results` dict returned by `process_frame`. -/
structure FrameResults where
  drowsy : Bool
  ear : ℚ
  faces_detected : ℕ
  alert_triggered : Bool
  deriving Repr, DecidableEq

/-- The session-relevant mutable attributes of a `DrowsinessDetector` object:
configuration (`thresh`, `frame_check`) plus the fields set by
`reset_session`. -/
structure DetectorState where
  thresh : ℚ
  frame_check : ℤ
  session_start : ℚ
  flag : ℕ
  drowsy_events : List DrowsyEvent
  total_frames : ℕ
  drowsy_frames : ℕ
  ear_history : List ℚ
  deriving Repr, DecidableEq

/-- `DrowsinessDetector.reset_session`: reset session variables for a new
detection session (`self.session_start = datetime.datetime.now()`). -/
def reset_session (st : DetectorState) (now : ℚ) : DetectorState :=
  { st with
    flag := 0
    session_start := now
    drowsy_events := []
    total_frames := 0
    drowsy_frames := 0
    ear_history := [] }

/-- The state of a freshly constructed detector (configuration stored by
`__init__`, then `self.reset_session()`). -/
def freshState (thresh : ℚ) (frame_check : ℤ) (now : ℚ) : DetectorState :=
  reset_session
    { thresh := thresh
      frame_check := frame_check
      session_start := now
      flag := 0
      drowsy_events := []
      total_frames := 0
      drowsy_frames := 0
      ear_history := [] } now

/-- The one exception `DrowsinessDetector.__init__` can raise:
`FileNotFoundError` when the landmark model file is missing. -/
inductive InitError where
  | fileNotFound
  deriving Repr, DecidableEq

/-- `DrowsinessDetector.__init__`: stores `thresh` and `frame_check` as given
(no validation of either), raises `FileNotFoundError` iff the model file does
not exist, then calls `reset_session`.  Mixer/audio setup is a side effect
outside the model. -/
def detector_init (thresh : ℚ) (frame_check : ℤ) (model_exists : Bool)
    (now : ℚ) : Except InitError DetectorState :=
  if model_exists then .ok (freshState thresh frame_check now)
  else .error .fileNotFound

/-- `DrowsinessDetector.log_drowsy_event`: append an event with the current
timestamp, the EAR value, and the elapsed session duration. -/
def log_drowsy_event (st : DetectorState) (now ear_value : ℚ) : DetectorState :=
  { st with
    drowsy_events :=
      st.drowsy_events ++ [⟨now, ear_value, now - st.session_start⟩] }

/-- The body of the `for subject in subjects:` loop of `process_frame`, for
one detected face with eye-aspect ratio `ear`:
`results["ear"] = ear`; `self.ear_history.append(ear)`;
if `ear < self.thresh` then `self.flag += 1`, `self.drowsy_frames += 1`,
`results["drowsy"] = True`, and when `self.flag >= self.frame_check` set
`results["alert_triggered"] = True` and log an event exactly when
`self.flag == self.frame_check`; otherwise `self.flag = 0`. -/
def processFace (now : ℚ) (acc : DetectorState × FrameResults) (ear : ℚ) :
    DetectorState × FrameResults :=
  let st := acc.1
  let r := { acc.2 with ear := ear }
  let st := { st with ear_history := st.ear_history ++ [ear] }
  if ear < st.thresh then
    let st := { st with flag := st.flag + 1, drowsy_frames := st.drowsy_frames + 1 }
    let r := { r with drowsy := true }
    if (st.flag : ℤ) ≥ st.frame_check then
      let r := { r with alert_triggered := true }
      if (st.flag : ℤ) = st.frame_check then (log_drowsy_event st now ear, r)
      else (st, r)
    else (st, r)
  else ({ st with flag := 0 }, r)

/-- `DrowsinessDetector.process_frame`: initialise the `results` dict,
`self.total_frames += 1`, then run the per-face loop over the detected faces
(`ears` is the list of per-face EAR readings in detection order;
`results["faces_detected"] = len(subjects)`). -/
def process_frame (st : DetectorState) (ears : List ℚ) (now : ℚ) :
    DetectorState × FrameResults :=
  let r0 : FrameResults :=
    { drowsy := false
      ear := 0
      faces_detected := ears.length
      alert_triggered := false }
  let st := { st with total_frames := st.total_frames + 1 }
  ears.foldl (processFace now) (st, r0)

/-- Drive the detector through a sequence of single-face frames (the shape of
the claims about "single-face EAR sequences"); frame timestamps are irrelevant
to the counters and are fixed at 0. -/
def runSingle (st : DetectorState) (ears : List ℚ) : DetectorState :=
  ears.foldl (fun s e => (process_frame s [e] 0).1) st

/-- The dict returned by `DrowsinessDetector.get_session_stats`. -/
structure SessionStats where
  session_duration : ℚ
  total_frames : ℕ
  drowsy_frames : ℕ
  drowsy_events : ℕ
  drowsiness_percentage : ℚ
  current_ear : ℚ
  avg_ear : ℚ
  deriving Repr, DecidableEq

/-- Arithmetic mean of a list of rationals (`np.mean`); the code only applies
it to nonempty histories. -/
def listMean (l : List ℚ) : ℚ := l.sum / l.length

/-- `np.min` over a nonempty list (0 on empty, matching the guarded call
sites). -/
def listMin : List ℚ → ℚ
  | [] => 0
  | x :: xs => xs.foldl min x

/-- `np.max` over a nonempty list (0 on empty, matching the guarded call
sites). -/
def listMax : List ℚ → ℚ
  | [] => 0
  | x :: xs => xs.foldl max x

/-- `DrowsinessDetector.get_session_stats`: current session statistics,
computed without mutation. -/
def get_session_stats (st : DetectorState) (now : ℚ) : SessionStats :=
  { session_duration := now - st.session_start
    total_frames := st.total_frames
    drowsy_frames := st.drowsy_frames
    drowsy_events := st.drowsy_events.length
    drowsiness_percentage :=
      (st.drowsy_frames : ℚ) / ((max st.total_frames 1 : ℕ) : ℚ) * 100
    current_ear := if st.ear_history.isEmpty then 0 else st.ear_history.getLast?.getD 0
    avg_ear := if st.ear_history.isEmpty then 0 else listMean st.ear_history }

/-- The `ear_stats` sub-dict of a saved session record. -/
structure EarStats where
  mean : ℚ
  emin : ℚ
  emax : ℚ
  deriving Repr, DecidableEq

/-- One persisted session record (`session_data` in `save_session_log`). -/
structure SessionData where
  session_id : ℚ
  duration_seconds : ℚ
  total_frames : ℕ
  drowsy_frames : ℕ
  drowsy_events : ℕ
  drowsiness_percentage : ℚ
  events : List DrowsyEvent
  ear_stats : EarStats
  deriving Repr, DecidableEq

/-- The `session_data` dict built by `save_session_log` (session ids are
instants, modelled as rationals like all timestamps). -/
def mkSessionData (st : DetectorState) (now : ℚ) : SessionData :=
  { session_id := st.session_start
    duration_seconds := now - st.session_start
    total_frames := st.total_frames
    drowsy_frames := st.drowsy_frames
    drowsy_events := st.drowsy_events.length
    drowsiness_percentage :=
      (st.drowsy_frames : ℚ) / ((max st.total_frames 1 : ℕ) : ℚ) * 100
    events := st.drowsy_events
    ear_stats :=
      { mean := if st.ear_history.isEmpty then 0 else listMean st.ear_history
        emin := if st.ear_history.isEmpty then 0 else listMin st.ear_history
        emax := if st.ear_history.isEmpty then 0 else listMax st.ear_history } }

/-- The state of the JSON log file: absent, present but unparseable, or a
parsed list of session records. -/
inductive LogFile where
  | missing
  | corrupt
  | logs (entries : List SessionData)
  deriving Repr, DecidableEq

/-- `DrowsinessDetector.load_historical_logs`: the parsed contents, or `[]`
when the file is missing or `json.load` raises. -/
def load_historical_logs : LogFile → List SessionData
  | .missing => []
  | .corrupt => []
  | .logs entries => entries

/-- `DrowsinessDetector.save_session_log`: build `session_data`, load the
existing logs (missing or unparseable file treated as `[]`), append, and write
the whole list back. -/
def save_session_log (st : DetectorState) (now : ℚ) (file : LogFile) : LogFile :=
  let logs :=
    match file with
    | .missing => []
    | .corrupt => []
    | .logs entries => entries
  .logs (logs ++ [mkSessionData st now])

/-- The live-session status record of `streamlit_app.py` (the JSON dict in
`live_session_status.json`); only the fields the claims touch are carried,
besides `active` all optional. -/
structure LiveStatus where
  active : Bool
  start_time : Option ℚ := none
  session_id : Option ℚ := none
  deriving Repr, DecidableEq

/-- The state of `live_session_status.json` on disk. -/
inductive StatusFile where
  | missing
  | corrupt
  | record (s : LiveStatus)
  deriving Repr, DecidableEq

/-- `check_live_session_status`: parse the status file; a missing or
unparseable file reads as `{"active": False}`. -/
def check_live_session_status : StatusFile → LiveStatus
  | .missing => { active := false }
  | .corrupt => { active := false }
  | .record s => s

/-- Coordinator-level state: the persisted status file plus a count of
detection runs that have been launched (each `subprocess.Popen` of
`realtime_detector.py`). -/
structure CoordState where
  status_file : StatusFile
  runs_started : ℕ
  deriving Repr, DecidableEq

/-- `start_live_detection`: unconditionally write a status record with
`active=true` and launch a new background detection run.  The function reads
no prior status and can raise no `AlreadyActive`-style error. -/
def start_live_detection (c : CoordState) (now : ℚ) : CoordState :=
  { status_file := .record { active := true, start_time := some now, session_id := some now }
    runs_started := c.runs_started + 1 }

/-- The start path of `live_detection_tab`: the tab reads the status via
`check_live_session_status` and renders the start button (whose click handler
calls `start_live_detection`) only in the `else` branch, i.e. only when the
persisted status is not active.  A start request while the status reads
active therefore changes nothing. -/
def live_tab_start_request (c : CoordState) (now : ℚ) : CoordState :=
  if (check_live_session_status c.status_file).active then c
  else start_live_detection c now

/-- States of a detector reachable from construction by any sequence of
`process_frame` and `reset_session` calls. -/
inductive Reachable (thresh : ℚ) (frame_check : ℤ) : DetectorState → Prop
  | init (now : ℚ) : Reachable thresh frame_check (freshState thresh frame_check now)
  | frame (st : DetectorState) (ears : List ℚ) (now : ℚ) :
      Reachable thresh frame_check st →
      Reachable thresh frame_check (process_frame st ears now).1
  | reset (st : DetectorState) (now : ℚ) :
      Reachable thresh frame_check st →
      Reachable thresh frame_check (reset_session st now)

/-- Drive the detector through a list of frames, each given as its detected
per-face EAR readings paired with the frame's wall-clock instant. -/
def runFrames (st : DetectorState) (frames : List (List ℚ × ℚ)) : DetectorState :=
  frames.foldl (fun s f => (process_frame s f.1 f.2).1) st

theorem processFace_config (now : ℚ) (acc : DetectorState × FrameResults) (e : ℚ) :
    (processFace now acc e).1.thresh = acc.1.thresh ∧
    (processFace now acc e).1.frame_check = acc.1.frame_check ∧
    (processFace now acc e).1.session_start = acc.1.session_start ∧
    (processFace now acc e).1.total_frames = acc.1.total_frames := by
  simp only [processFace, log_drowsy_event]
  split_ifs <;> simp

theorem processFace_flag (now : ℚ) (acc : DetectorState × FrameResults) (e : ℚ) :
    (processFace now acc e).1.flag = if e < acc.1.thresh then acc.1.flag + 1 else 0 := by
  simp only [processFace, log_drowsy_event]
  split_ifs <;> simp

theorem processFace_drowsy_frames (now : ℚ) (acc : DetectorState × FrameResults) (e : ℚ) :
    (processFace now acc e).1.drowsy_frames =
      acc.1.drowsy_frames + if e < acc.1.thresh then 1 else 0 := by
  simp only [processFace, log_drowsy_event]
  split_ifs <;> simp

theorem processFace_events (now : ℚ) (acc : DetectorState × FrameResults) (e : ℚ) :
    (processFace now acc e).1.drowsy_events =
      acc.1.drowsy_events ++
        if e < acc.1.thresh ∧ (acc.1.flag : ℤ) + 1 = acc.1.frame_check then
          [⟨now, e, now - acc.1.session_start⟩] else [] := by
  simp only [processFace, log_drowsy_event]
  split_ifs with h1 h2 h3 <;> simp_all

theorem processFace_drowsy_result (now : ℚ) (acc : DetectorState × FrameResults) (e : ℚ) :
    (processFace now acc e).2.drowsy = (acc.2.drowsy || decide (e < acc.1.thresh)) := by
  simp only [processFace, log_drowsy_event]
  split_ifs <;> simp_all

theorem processFace_alert_result (now : ℚ) (acc : DetectorState × FrameResults) (e : ℚ) :
    (processFace now acc e).2.alert_triggered =
      (acc.2.alert_triggered ||
        (decide (e < acc.1.thresh) && decide (acc.1.frame_check ≤ (acc.1.flag : ℤ) + 1))) := by
  simp only [processFace, log_drowsy_event]
  split_ifs with h1 h2 h3 <;> simp_all

theorem foldFaces_config (now : ℚ) (ears : List ℚ) (acc : DetectorState × FrameResults) :
    ((ears.foldl (processFace now) acc).1).thresh = acc.1.thresh ∧
    ((ears.foldl (processFace now) acc).1).frame_check = acc.1.frame_check ∧
    ((ears.foldl (processFace now) acc).1).session_start = acc.1.session_start ∧
    ((ears.foldl (processFace now) acc).1).total_frames = acc.1.total_frames := by
  induction ears generalizing acc with
  | nil => simp
  | cons e rest ih =>
      have h := processFace_config now acc e
      have h2 := ih (processFace now acc e)
      simp only [List.foldl_cons]
      exact ⟨h2.1.trans h.1, h2.2.1.trans h.2.1, h2.2.2.1.trans h.2.2.1,
        h2.2.2.2.trans h.2.2.2⟩

theorem foldFaces_drowsy_frames_le (now : ℚ) (ears : List ℚ)
    (acc : DetectorState × FrameResults) :
    ((ears.foldl (processFace now) acc).1).drowsy_frames ≤
      acc.1.drowsy_frames + ears.length := by
  induction ears generalizing acc with
  | nil => simp
  | cons e rest ih =>
      have h := processFace_drowsy_frames now acc e
      have h2 := ih (processFace now acc e)
      simp only [List.foldl_cons, List.length_cons]
      split_ifs at h <;> omega

theorem foldFaces_flag (now : ℚ) (ears : List ℚ) (acc : DetectorState × FrameResults) :
    ((ears.foldl (processFace now) acc).1).flag =
      ears.foldl (fun f e => if e < acc.1.thresh then f + 1 else 0) acc.1.flag := by
  induction ears generalizing acc with
  | nil => simp
  | cons e rest ih =>
      have hth := (processFace_config now acc e).1
      have hfl := processFace_flag now acc e
      have h2 := ih (processFace now acc e)
      simp only [List.foldl_cons]
      rw [h2, hth, hfl]

theorem foldFaces_events_lt (now : ℚ) (ears : List ℚ) (acc : DetectorState × FrameResults)
    (hacc : ∀ ev ∈ acc.1.drowsy_events, ev.ear_value < acc.1.thresh) :
    ∀ ev ∈ ((ears.foldl (processFace now) acc).1).drowsy_events,
      ev.ear_value < ((ears.foldl (processFace now) acc).1).thresh := by
  induction ears generalizing acc with
  | nil => simpa using hacc
  | cons e rest ih =>
      simp only [List.foldl_cons]
      refine ih (processFace now acc e) ?_
      intro ev hev
      rw [processFace_events now acc e] at hev
      rw [(processFace_config now acc e).1]
      rcases List.mem_append.1 hev with h | h
      · exact hacc ev h
      · split_ifs at h with hc
        · rcases List.mem_singleton.1 h with rfl
          exact hc.1
        · simp at h

theorem processFace_faces (now : ℚ) (acc : DetectorState × FrameResults) (e : ℚ) :
    (processFace now acc e).2.faces_detected = acc.2.faces_detected := by
  simp only [processFace, log_drowsy_event]
  split_ifs <;> simp

theorem process_frame_one (st : DetectorState) (e now : ℚ) :
    (process_frame st [e] now).1.thresh = st.thresh ∧
    (process_frame st [e] now).1.frame_check = st.frame_check ∧
    (process_frame st [e] now).1.session_start = st.session_start ∧
    (process_frame st [e] now).1.total_frames = st.total_frames + 1 ∧
    (process_frame st [e] now).1.flag = (if e < st.thresh then st.flag + 1 else 0) ∧
    (process_frame st [e] now).1.drowsy_frames =
      st.drowsy_frames + (if e < st.thresh then 1 else 0) ∧
    (process_frame st [e] now).1.drowsy_events =
      st.drowsy_events ++
        (if e < st.thresh ∧ (st.flag : ℤ) + 1 = st.frame_check then
          [⟨now, e, now - st.session_start⟩] else []) := by
  simp only [process_frame, List.foldl_cons, List.foldl_nil]
  refine ⟨?_, ?_, ?_, ?_, ?_, ?_, ?_⟩
  · exact (processFace_config now _ e).1
  · exact (processFace_config now _ e).2.1
  · exact (processFace_config now _ e).2.2.1
  · exact (processFace_config now _ e).2.2.2
  · rw [processFace_flag]
  · rw [processFace_drowsy_frames]
  · rw [processFace_events]

theorem process_frame_one_results (st : DetectorState) (e now : ℚ) :
    (process_frame st [e] now).2.drowsy = decide (e < st.thresh) ∧
    (process_frame st [e] now).2.faces_detected = 1 ∧
    (process_frame st [e] now).2.alert_triggered =
      (decide (e < st.thresh) && decide (st.frame_check ≤ (st.flag : ℤ) + 1)) := by
  simp only [process_frame, List.foldl_cons, List.foldl_nil]
  refine ⟨?_, ?_, ?_⟩
  · rw [processFace_drowsy_result]; simp
  · rw [processFace_faces]; simp
  · rw [processFace_alert_result]; simp

theorem runSingle_cons (st : DetectorState) (e : ℚ) (rest : List ℚ) :
    runSingle st (e :: rest) = runSingle (process_frame st [e] 0).1 rest := by
  simp [runSingle]

theorem runSingle_append (st : DetectorState) (a b : List ℚ) :
    runSingle st (a ++ b) = runSingle (runSingle st a) b := by
  simp [runSingle, List.foldl_append]

theorem runSingle_low (ears : List ℚ) (st : DetectorState)
    (h : ∀ e ∈ ears, e < st.thresh) :
    (runSingle st ears).thresh = st.thresh ∧
    (runSingle st ears).frame_check = st.frame_check ∧
    (runSingle st ears).flag = st.flag + ears.length ∧
    (runSingle st ears).drowsy_events.length =
      st.drowsy_events.length +
        if (st.flag : ℤ) < st.frame_check ∧
            st.frame_check ≤ (st.flag : ℤ) + ears.length then 1 else 0 := by
  induction ears generalizing st with
  | nil =>
      refine ⟨rfl, rfl, by simp [runSingle], ?_⟩
      simp only [runSingle, List.foldl_nil, List.length_nil]
      split_ifs with hc
      · omega
      · omega
  | cons e rest ih =>
      have he : e < st.thresh := h e (by simp)
      obtain ⟨pth, pfc, psess, ptot, pfl, pdr, pev⟩ := process_frame_one st e 0
      have hrest : ∀ x ∈ rest, x < (process_frame st [e] 0).1.thresh := by
        rw [pth]
        intro x hx
        exact h x (by simp [hx])
      obtain ⟨th1, fc1, fl1, ev1⟩ := ih (process_frame st [e] 0).1 hrest
      rw [runSingle_cons]
      refine ⟨th1.trans pth, fc1.trans pfc, ?_, ?_⟩
      · rw [fl1, pfl]
        simp only [he, if_true, List.length_cons]
        omega
      · rw [ev1, pev, pfl, pfc]
        simp only [he, if_true, true_and, List.length_append, List.length_cons]
        split_ifs <;> simp_all <;> omega

/-- C1 (counterexample): the claimed invariant `drowsy_frames ≤ total_frames`
fails on a frame with two detected faces.  From a fresh session with threshold
1, one `process_frame` call with two faces both reading EAR 0 increments
`total_frames` once but `drowsy_frames` once per face, giving
`drowsy_frames = 2 > 1 = total_frames`. -/
theorem C1_multi_face_counterexample :
    ¬ ((process_frame (freshState 1 20 0) [0, 0] 0).1.drowsy_frames ≤
        (process_frame (freshState 1 20 0) [0, 0] 0).1.total_frames) := by
  decide

/-- C1 (amended): `total_frames` is incremented once per `process_frame` call
but `drowsy_frames` once per below-threshold face, so the invariant
`drowsy_frames ≤ total_frames` holds after every call for sequences in which
each processed frame detects at most one face (multi-face frames can break
it). -/
theorem C1_single_face_invariant (st : DetectorState) (frames : List (List ℚ × ℚ))
    (hst : st.drowsy_frames ≤ st.total_frames)
    (hframes : ∀ f ∈ frames, f.1.length ≤ 1) :
    (runFrames st frames).drowsy_frames ≤ (runFrames st frames).total_frames := by
  induction frames generalizing st with
  | nil => simpa [runFrames] using hst
  | cons f rest ih =>
      have hlen : f.1.length ≤ 1 := hframes f (by simp)
      have htot : (process_frame st f.1 f.2).1.total_frames = st.total_frames + 1 := by
        simp only [process_frame]
        exact (foldFaces_config f.2 f.1 _).2.2.2
      have hdro : (process_frame st f.1 f.2).1.drowsy_frames ≤
          st.drowsy_frames + f.1.length := by
        simp only [process_frame]
        exact foldFaces_drowsy_frames_le f.2 f.1 _
      have hinv : (process_frame st f.1 f.2).1.drowsy_frames ≤
          (process_frame st f.1 f.2).1.total_frames := by omega
      have hrest : ∀ g ∈ rest, g.1.length ≤ 1 := fun g hg => hframes g (by simp [hg])
      have hstep : runFrames st (f :: rest) = runFrames (process_frame st f.1 f.2).1 rest := by
        simp [runFrames]
      rw [hstep]
      exact ih _ hinv hrest

/-- Witness for C1 (amended) at a concrete three-frame single-face trace. -/
theorem C1_single_face_invariant_witness :
    (runFrames (freshState 1 20 0) [([0], 0), ([], 0), ([2], 0)]).drowsy_frames ≤
      (runFrames (freshState 1 20 0) [([0], 0), ([], 0), ([2], 0)]).total_frames :=
  C1_single_face_invariant (freshState 1 20 0) [([0], 0), ([], 0), ([2], 0)]
    (by decide) (by decide)

/-- C2 (counterexample): per-face counters are not independent.  With
threshold 1, a frame containing one face at EAR 0 leaves the consecutive-low
counter at 1; the same frame with a second face at EAR 2 processed after it
leaves the counter at 0 — the second face's above-threshold reading reset the
counter that the first face's low reading had advanced, because all faces
share the single `self.flag`. -/
theorem C2_shared_flag_counterexample :
    (process_frame (freshState 1 20 0) [0, 2] 0).1.flag = 0 ∧
    (process_frame (freshState 1 20 0) [0] 0).1.flag = 1 := by
  decide

/-- C2 (amended): there is exactly one consecutive-low counter, shared by all
faces: a `process_frame` call folds every detected face's EAR reading, in
detection order, through the single counter `flag` (increment on a
below-threshold reading, reset to 0 otherwise). -/
theorem C2_shared_flag_fold (st : DetectorState) (ears : List ℚ) (now : ℚ) :
    (process_frame st ears now).1.flag =
      ears.foldl (fun f e => if e < st.thresh then f + 1 else 0) st.flag := by
  simp only [process_frame]
  exact foldFaces_flag now ears _

/-- C3: for single-face EAR sequences from a fresh session (positive
`frame_check`), a `DrowsyEvent` is appended exactly once per continuous
below-threshold run, precisely at the frame where the consecutive-low counter
first equals `frame_check`; later frames of the run append nothing but keep
`alert_triggered` true, and two qualifying runs separated by an
above-threshold frame append exactly two events. -/
theorem C3_event_once_per_run (thresh hq : ℚ) (fc : ℤ) (L1 L2 : List ℚ)
    (hfc : 1 ≤ fc)
    (hL1 : ∀ e ∈ L1, e < thresh) (hL2 : ∀ e ∈ L2, e < thresh)
    (hlen1 : fc ≤ (L1.length : ℤ)) (hlen2 : fc ≤ (L2.length : ℤ))
    (hh : thresh ≤ hq) :
    (runSingle (freshState thresh fc 0) (L1 ++ hq :: L2)).drowsy_events.length = 2 ∧
    (∀ n, n ≤ L1.length →
      (runSingle (freshState thresh fc 0) (L1.take n)).drowsy_events.length =
        if fc ≤ (n : ℤ) then 1 else 0) ∧
    (∀ n, (hn : n < L1.length) → fc ≤ (n : ℤ) + 1 →
      (process_frame (runSingle (freshState thresh fc 0) (L1.take n))
          [L1.get ⟨n, hn⟩] 0).2.alert_triggered = true) := by
  have hfr : (freshState thresh fc 0).frame_check = fc := rfl
  have hfl0 : (freshState thresh fc 0).flag = 0 := rfl
  have hev0 : (freshState thresh fc 0).drowsy_events.length = 0 := rfl
  have hth0 : (freshState thresh fc 0).thresh = thresh := rfl
  have hL1f : ∀ e ∈ L1, e < (freshState thresh fc 0).thresh := by
    rw [hth0]; exact hL1
  obtain ⟨a_th, a_fc, a_fl, a_ev⟩ := runSingle_low L1 (freshState thresh fc 0) hL1f
  rw [hth0] at a_th
  rw [hfr] at a_fc
  rw [hfl0, hfr, hev0] at a_ev
  refine ⟨?_, ?_, ?_⟩
  · -- full trace: one event in L1, none at hq, one more in L2
    rw [runSingle_append, runSingle_cons]
    obtain ⟨s_th, s_fc, s_sess, s_tot, s_fl, s_dr, s_ev⟩ :=
      process_frame_one (runSingle (freshState thresh fc 0) L1) hq 0
    have hnot : ¬ hq < (runSingle (freshState thresh fc 0) L1).thresh := by
      rw [a_th]
      exact not_lt.mpr hh
    rw [if_neg hnot] at s_fl
    have hcond : ¬ (hq < (runSingle (freshState thresh fc 0) L1).thresh ∧
        ((runSingle (freshState thresh fc 0) L1).flag : ℤ) + 1 =
          (runSingle (freshState thresh fc 0) L1).frame_check) :=
      fun hcc => hnot hcc.1
    rw [if_neg hcond, List.append_nil] at s_ev
    have hL2f : ∀ e ∈ L2,
        e < (process_frame (runSingle (freshState thresh fc 0) L1) [hq] 0).1.thresh := by
      rw [s_th, a_th]
      exact hL2
    obtain ⟨b_th, b_fc, b_fl, b_ev⟩ :=
      runSingle_low L2 (process_frame (runSingle (freshState thresh fc 0) L1) [hq] 0).1 hL2f
    rw [b_ev, s_ev, a_ev, s_fl, s_fc, a_fc]
    push_cast
    split_ifs <;> omega
  · -- prefixes of the first run: the event count flips from 0 to 1 at frame fc
    intro n hn
    have htake : ∀ e ∈ L1.take n, e < (freshState thresh fc 0).thresh := by
      rw [hth0]
      exact fun e he => hL1 e (List.mem_of_mem_take he)
    obtain ⟨t_th, t_fc, t_fl, t_ev⟩ := runSingle_low (L1.take n) (freshState thresh fc 0) htake
    rw [hfl0, hfr, hev0] at t_ev
    have hc : (L1.take n).length = n := by
      rw [List.length_take]
      exact min_eq_left hn
    rw [t_ev, hc]
    push_cast
    split_ifs <;> omega
  · -- beyond frame fc the alert stays on
    intro n hn hfcn
    have htake : ∀ e ∈ L1.take n, e < (freshState thresh fc 0).thresh := by
      rw [hth0]
      exact fun e he => hL1 e (List.mem_of_mem_take he)
    obtain ⟨t_th, t_fc, t_fl, t_ev⟩ := runSingle_low (L1.take n) (freshState thresh fc 0) htake
    rw [hth0] at t_th
    rw [hfr] at t_fc
    rw [hfl0] at t_fl
    obtain ⟨r_dr, r_fa, r_al⟩ :=
      process_frame_one_results (runSingle (freshState thresh fc 0) (L1.take n))
        (L1.get ⟨n, hn⟩) 0
    have he : L1.get ⟨n, hn⟩ < thresh := hL1 _ (List.get_mem L1 n hn)
    have hc : (L1.take n).length = n := by
      rw [List.length_take]
      exact min_eq_left (le_of_lt hn)
    rw [r_al, t_th, t_fc, t_fl, hc]
    rw [decide_eq_true he]
    have hfcn2 : fc ≤ ((0 + n : ℕ) : ℤ) + 1 := by
      push_cast
      omega
    rw [decide_eq_true hfcn2]
    rfl

/-- Witness for C3 at threshold 1, frame_check 2, runs `[0,0,0]` and `[0,0]`
separated by the above-threshold reading 2: exactly two events. -/
theorem C3_event_once_per_run_witness :
    (runSingle (freshState 1 2 0) ([0, 0, 0] ++ 2 :: [0, 0])).drowsy_events.length = 2 :=
  (C3_event_once_per_run 1 2 2 [0, 0, 0] [0, 0] (by decide) (by decide) (by decide)
    (by decide) (by decide) (by decide)).1

/-- C4 (counterexample): `start_live_detection` itself performs no
active-session check and cannot fail: invoked with a persisted status record
showing `active=true` and one run already started, it launches a second
detection run (`runs_started` goes from 1 to 2) instead of failing with an
`AlreadyActive` error. -/
theorem C4_start_counterexample :
    (start_live_detection ⟨StatusFile.record { active := true }, 1⟩ 0).runs_started = 2 ∧
    (check_live_session_status (StatusFile.record { active := true })).active = true :=
  ⟨rfl, rfl⟩

/-- C4 (amended): no `AlreadyActive` error exists; the guard lives one level
up. The live-detection tab reads the persisted status and only offers the
start action when it is inactive, so a tab-level start request while the
status record shows `active=true` changes nothing and begins no new run. -/
theorem C4_tab_start_guard (c : CoordState) (now : ℚ)
    (h : (check_live_session_status c.status_file).active = true) :
    live_tab_start_request c now = c := by
  simp [live_tab_start_request, h]

/-- Witness for C4 (amended) on a concrete active status record. -/
theorem C4_tab_start_guard_witness :
    live_tab_start_request ⟨StatusFile.record { active := true }, 1⟩ 0 =
      ⟨StatusFile.record { active := true }, 1⟩ :=
  C4_tab_start_guard ⟨StatusFile.record { active := true }, 1⟩ 0 rfl

/-- C5: a single-face frame is classified drowsy iff `ear < thresh`, a strict
inequality; a frame with `ear` exactly equal to the threshold is not drowsy,
does not increment `drowsy_frames`, and resets the consecutive-low counter to
0, ending the current run. -/
theorem C5_strict_threshold (st : DetectorState) (e now : ℚ) :
    ((process_frame st [e] now).2.drowsy = true ↔ e < st.thresh) ∧
    (process_frame st [e] now).1.flag = (if e < st.thresh then st.flag + 1 else 0) ∧
    (e = st.thresh →
      (process_frame st [e] now).2.drowsy = false ∧
      (process_frame st [e] now).1.flag = 0 ∧
      (process_frame st [e] now).1.drowsy_frames = st.drowsy_frames) := by
  obtain ⟨r_dr, r_fa, r_al⟩ := process_frame_one_results st e now
  obtain ⟨p_th, p_fc, p_sess, p_tot, p_fl, p_dr, p_ev⟩ := process_frame_one st e now
  refine ⟨by rw [r_dr]; simp, p_fl, ?_⟩
  intro he
  subst he
  have hnot : ¬ st.thresh < st.thresh := lt_irrefl st.thresh
  exact ⟨by rw [r_dr]; simp [hnot], by rw [p_fl]; simp [hnot], by rw [p_dr]; simp [hnot]⟩

/-- Witness for C5 at `ear = thresh = 1`: not drowsy, counter reset, drowsy
count unchanged. -/
theorem C5_strict_threshold_witness :
    (process_frame (freshState 1 20 0) [1] 0).2.drowsy = false ∧
    (process_frame (freshState 1 20 0) [1] 0).1.flag = 0 ∧
    (process_frame (freshState 1 20 0) [1] 0).1.drowsy_frames =
      (freshState 1 20 0).drowsy_frames :=
  (C5_strict_threshold (freshState 1 20 0) 1 0).2.2 rfl

/-- C6: `get_session_stats` on a session with zero processed frames and empty
EAR history (any state right after `reset_session`) returns
`drowsiness_percentage = 0`, `avg_ear = 0` and `current_ear = 0`, with no
division by zero: the denominator is `max(total_frames, 1)` and the
empty-history branches return 0. -/
theorem C6_empty_session_stats (st : DetectorState) (now now2 : ℚ) :
    (get_session_stats (reset_session st now) now2).drowsiness_percentage = 0 ∧
    (get_session_stats (reset_session st now) now2).avg_ear = 0 ∧
    (get_session_stats (reset_session st now) now2).current_ear = 0 := by
  refine ⟨?_, ?_, ?_⟩ <;> simp [get_session_stats, reset_session]

/-- C7: appending a session summary to a fresh (missing or corrupt) store and
loading returns exactly that summary; a second append yields the two summaries
in append order; loading a missing or corrupt store returns the empty list
rather than failing. -/
theorem C7_store_append_load (st1 st2 : DetectorState) (n1 n2 : ℚ) (f : LogFile)
    (hf : f = LogFile.missing ∨ f = LogFile.corrupt) :
    load_historical_logs (save_session_log st1 n1 f) = [mkSessionData st1 n1] ∧
    load_historical_logs (save_session_log st2 n2 (save_session_log st1 n1 f)) =
      [mkSessionData st1 n1, mkSessionData st2 n2] ∧
    load_historical_logs LogFile.missing = [] ∧
    load_historical_logs LogFile.corrupt = [] := by
  rcases hf with rfl | rfl <;> exact ⟨rfl, rfl, rfl, rfl⟩

/-- Witness for C7 on a concrete fresh-state summary and missing store. -/
theorem C7_store_append_load_witness :
    load_historical_logs (save_session_log (freshState 1 20 0) 0 LogFile.missing) =
      [mkSessionData (freshState 1 20 0) 0] :=
  (C7_store_append_load (freshState 1 20 0) (freshState 1 20 0) 0 0 LogFile.missing
    (Or.inl rfl)).1

/-- C8 (counterexample): constructing a detector with an invalid EAR
threshold (-1) and a non-positive frame-check count (0) succeeds — the
constructor validates neither value, and its error type has no
`ConfigurationError` case at all. -/
theorem C8_no_validation_counterexample :
    detector_init (-1) 0 true 0 = Except.ok (freshState (-1) 0 0) := rfl

/-- C8 (amended): `__init__` performs no validation of `thresh` or
`frame_check`: with the model file present, construction succeeds for every
threshold and frame-check value; the only construction-time failure is
`FileNotFoundError` when the model file is missing. -/
theorem C8_init_behaviour (thresh : ℚ) (frame_check : ℤ) (now : ℚ) :
    detector_init thresh frame_check true now =
      Except.ok (freshState thresh frame_check now) ∧
    detector_init thresh frame_check false now = Except.error InitError.fileNotFound :=
  ⟨rfl, rfl⟩

/-- C9: a frame with zero detected faces increments `total_frames` by one and
leaves the counter, `drowsy_frames`, `ear_history` and the event list
unchanged, returning `facesDetected=0`, `ear=0`, `isDrowsyFrame=false`,
`alertTriggered=false`. -/
theorem C9_zero_faces_frame (st : DetectorState) (now : ℚ) :
    (process_frame st [] now).1.total_frames = st.total_frames + 1 ∧
    (process_frame st [] now).1.flag = st.flag ∧
    (process_frame st [] now).1.drowsy_frames = st.drowsy_frames ∧
    (process_frame st [] now).1.ear_history = st.ear_history ∧
    (process_frame st [] now).1.drowsy_events = st.drowsy_events ∧
    (process_frame st [] now).2 =
      { drowsy := false, ear := 0, faces_detected := 0, alert_triggered := false } :=
  ⟨rfl, rfl, rfl, rfl, rfl, rfl⟩

/-- C10: in every state reachable from construction by `process_frame` and
`reset_session` calls, every recorded `DrowsyEvent` carries an `ear_value`
strictly below the configured threshold, because events are only appended in
the below-threshold branch with that frame's EAR. -/
theorem C10_events_below_threshold (thresh : ℚ) (fc : ℤ) (st : DetectorState)
    (h : Reachable thresh fc st) :
    ∀ ev ∈ st.drowsy_events, ev.ear_value < st.thresh := by
  induction h with
  | init now => simp [freshState, reset_session]
  | frame st0 ears now _ ih =>
      simp only [process_frame]
      exact foldFaces_events_lt now ears _ ih
  | reset st0 now _ _ => simp [reset_session]

/-- Witness for C10 at the reachable state reached by one alert-logging frame
(threshold 1, frame_check 1, EAR 0): the logged event's EAR is below the
threshold. -/
theorem C10_events_below_threshold_witness :
    (⟨0, 0, 0⟩ : DrowsyEvent).ear_value <
      (process_frame (freshState 1 1 0) [0] 0).1.thresh :=
  C10_events_below_threshold 1 1 (process_frame (freshState 1 1 0) [0] 0).1
    (Reachable.frame (freshState 1 1 0) [0] 0 (Reachable.init 0))
    ⟨0, 0, 0⟩ (by
      have h : (process_frame (freshState 1 1 0) [0] 0).1.drowsy_events =
          [⟨0, 0, 0⟩] := by
        norm_num [process_frame, processFace, freshState, reset_session, log_drowsy_event]
      rw [h]
      exact List.mem_singleton_self _)
